import Mathlib

/-!
Verification development for the signal-cli → TAK bridge
(`src/tak_bot/__main__.py`).

The Python module is shallowly embedded: strings are `List Char`, Python
floats are `PyFloat` (exact rationals plus infinities and NaN — the code
never performs float arithmetic, it only stores parsed values and compares
them against integer bounds, so exact rationals are a faithful carrier),
fallible code returns `Except`, the `asyncio` effects (queue puts, handler
invocations, sleeps) are made explicit as state passing and event traces.
-/

set_option maxRecDepth 4000

/-- Python `float` values as stored by the bot: an exact rational for finite
decimal literals, plus the `inf`/`-inf`/`nan` values `float()` can produce. -/
inductive PyFloat where
  | finite (q : ℚ)
  | inf
  | neginf
  | nan
deriving DecidableEq

/-- ASCII decimal digit test, as used by Python float syntax. -/
def pyIsDigit (c : Char) : Bool := decide ('0' ≤ c) && decide (c ≤ '9')

/-- Numeric value of a digit string (most significant first). -/
def digitsVal (ds : List Char) : ℕ :=
  ds.foldl (fun a c => a * 10 + (c.toNat - 48)) 0

/-- Tail of a Python digit group after its leading digit: digits with single
underscores allowed strictly between digits (`1_000` is valid, `1__0`,
`1_`, `_1` are not). -/
def digitGroupRest : List Char → Bool
  | [] => true
  | '_' :: [] => false
  | '_' :: c :: r => pyIsDigit c && digitGroupRest r
  | c :: r => pyIsDigit c && digitGroupRest r

/-- A valid Python digit group: nonempty, starts with a digit, underscores
only between digits. -/
def validGroup : List Char → Bool
  | [] => false
  | c :: r => pyIsDigit c && digitGroupRest r

/-- Characters that can appear in a digit group. -/
def isGroupChar (c : Char) : Bool := pyIsDigit c || c == '_'

/-- Split off the longest leading run of digit-group characters. -/
def takeGroup (s : List Char) : List Char × List Char :=
  (s.takeWhile isGroupChar, s.dropWhile isGroupChar)

/-- Numeric value of a digit group, ignoring underscores. -/
def groupVal (g : List Char) : ℕ := digitsVal (g.filter pyIsDigit)

/-- Number of digits in a digit group (underscores excluded). -/
def groupLen (g : List Char) : ℕ := (g.filter pyIsDigit).length

/-- Optional leading sign of a Python float literal. -/
def parseSign : List Char → ℚ × List Char
  | '+' :: r => (1, r)
  | '-' :: r => (-1, r)
  | s => (1, s)

/-- ASCII lowering, the fragment of Python `str.lower` the bot's data needs. -/
def pyLowerChar (c : Char) : Char :=
  if decide ('A' ≤ c) && decide (c ≤ 'Z') then Char.ofNat (c.toNat + 32) else c

/-- Lowercase a string (ASCII). -/
def pyLower (s : List Char) : List Char := s.map pyLowerChar

/-- Model of Python's builtin `float()` on a whitespace-free token (the bot
only ever applies it to tokens produced by `str.split`, which contain no
whitespace): optional sign, then `inf`/`infinity`/`nan` (case-insensitive)
or a decimal literal `digits [. digits] [(e|E) [sign] digits]` where each
digit group may contain single underscores between digits and at least one
digit must appear before the exponent.  Returns `none` where `float()`
raises `ValueError`. -/
def parseFloat (s : List Char) : Option PyFloat :=
  let sg := parseSign s
  let low := pyLower sg.2
  if low == "inf".data || low == "infinity".data then
    some (if sg.1 = 1 then PyFloat.inf else PyFloat.neginf)
  else if low == "nan".data then
    some PyFloat.nan
  else
    let ig := (takeGroup sg.2).1
    let s2 := (takeGroup sg.2).2
    let fg := match s2 with
      | '.' :: r => (takeGroup r).1
      | _ => []
    let s3 := match s2 with
      | '.' :: r => (takeGroup r).2
      | _ => s2
    if !ig.isEmpty && !validGroup ig then none
    else if !fg.isEmpty && !validGroup fg then none
    else if ig.isEmpty && fg.isEmpty then none
    else
      let mant : ℚ := (groupVal ig : ℚ) + (groupVal fg : ℚ) / ((10 : ℚ) ^ groupLen fg)
      match s3 with
      | [] => some (PyFloat.finite (sg.1 * mant))
      | c :: r =>
        if c == 'e' || c == 'E' then
          let esg := parseSign r
          let eg := (takeGroup esg.2).1
          let r2 := (takeGroup esg.2).2
          if validGroup eg && r2.isEmpty then
            let ev : ℤ := if esg.1 = 1 then (groupVal eg : ℤ) else -(groupVal eg : ℤ)
            some (PyFloat.finite (sg.1 * mant * (10 : ℚ) ^ ev))
          else none
        else none

/-- Python whitespace characters recognised by `str.strip` / `str.split`
(ASCII fragment). -/
def pyIsSpace (c : Char) : Bool :=
  c == ' ' || c == '\t' || c == '\n' || c == '\r' || c == '\x0b' || c == '\x0c'

/-- Negation of `pyIsSpace`, the token-character test for `str.split`. -/
def notSpace (c : Char) : Bool := !pyIsSpace c

/-- Model of Python `str.strip()`: remove leading and trailing whitespace. -/
def pyStrip (s : List Char) : List Char :=
  ((s.dropWhile pyIsSpace).reverse.dropWhile pyIsSpace).reverse

/-- Model of Python `str.split(maxsplit=2)` with `sep=None`: split on runs of
whitespace into at most three parts; the third part is the remainder with its
leading whitespace removed.  Produces no empty parts. -/
def pySplit2 (s : List Char) : List (List Char) :=
  let s1 := s.dropWhile pyIsSpace
  if s1.isEmpty then []
  else
    let t1 := s1.takeWhile notSpace
    let r1 := s1.dropWhile notSpace
    let s2 := r1.dropWhile pyIsSpace
    if s2.isEmpty then [t1]
    else
      let t2 := s2.takeWhile notSpace
      let r2 := s2.dropWhile notSpace
      let s3 := r2.dropWhile pyIsSpace
      if s3.isEmpty then [t1, t2]
      else [t1, t2, s3]

/-- The `Affiliation` enum of the bot. -/
inductive Affiliation where
  | hostile
  | friendly
  | neutral
  | unknown
deriving DecidableEq

/-- The `.value` attribute of each `Affiliation` member. -/
def Affiliation.value : Affiliation → Char
  | .hostile => 'h'
  | .friendly => 'f'
  | .neutral => 'n'
  | .unknown => 'u'

/-- The `CoordinateMessage` frozen dataclass (field carrier only; validation
performed by `CoordinateMessage.init` below, mirroring `__post_init__`). -/
structure CoordinateMessage where
  lat : PyFloat
  lon : PyFloat
  description : List Char
  affiliation : Affiliation
  event_id : List Char
deriving DecidableEq

/-- The distinct `ValueError`s the dataclass and its parser can raise:
`__post_init__`'s three `raise` statements, and `from_string`'s two. -/
inductive VErr where
  | invalidLatitude
  | invalidLongitude
  | emptyLabel
  | badFormat
  | invalidCoordinates
deriving DecidableEq

/-- Python comparison `q <= x` between an int literal and a float value
(false when `x` is NaN). -/
def pyLeQ (q : ℚ) (x : PyFloat) : Bool :=
  match x with
  | .finite v => decide (q ≤ v)
  | .inf => true
  | .neginf => false
  | .nan => false

/-- Python comparison `x <= q` between a float value and an int literal
(false when `x` is NaN). -/
def pyLeF (x : PyFloat) (q : ℚ) : Bool :=
  match x with
  | .finite v => decide (v ≤ q)
  | .inf => false
  | .neginf => true
  | .nan => false

/-- Python chained comparison `lo <= x <= hi`. -/
def chainedLe (lo : ℚ) (x : PyFloat) (hi : ℚ) : Bool :=
  pyLeQ lo x && pyLeF x hi

/-- Dataclass construction followed by `__post_init__` validation: latitude
bounds, then longitude bounds, then non-empty label; each failure is the
corresponding `ValueError`. -/
def CoordinateMessage.init (lat lon : PyFloat) (description : List Char)
    (affiliation : Affiliation) (event_id : List Char) :
    Except VErr CoordinateMessage :=
  if !chainedLe (-90) lat 90 then Except.error VErr.invalidLatitude
  else if !chainedLe (-180) lon 180 then Except.error VErr.invalidLongitude
  else if description.isEmpty then Except.error VErr.emptyLabel
  else Except.ok ⟨lat, lon, description, affiliation, event_id⟩

/-- `CoordinateMessage.from_string`: strip, split into at most three
whitespace-separated tokens, require exactly three, parse the first two as
floats, and construct with the default affiliation and the default
`event_id` factory `"Signal-Bot-" + uuid4()`; the fresh uuid string is an
explicit argument (the source draws it from `uuid.uuid4()`). -/
def from_string (uuid text : List Char) : Except VErr CoordinateMessage :=
  match pySplit2 (pyStrip text) with
  | [p0, p1, p2] =>
    match parseFloat p0, parseFloat p1 with
    | some lat, some lon =>
        CoordinateMessage.init lat lon p2 Affiliation.unknown
          ("Signal-Bot-".data ++ uuid)
    | _, _ => Except.error VErr.invalidCoordinates
  | _ => Except.error VErr.badFormat

/-- The `COT_TYPE_MAP` dictionary: label → CoT category code. -/
def COT_TYPE_MAP : List (List Char × List Char) :=
  [("tank".data, "G-U-C-F-M".data),
   ("apc".data, "G-U-C-F-A".data),
   ("infantry".data, "G-U-C-I".data),
   ("artillery".data, "G-U-C-F-D".data),
   ("mlrs".data, "G-U-C-F-D-M".data),
   ("sam".data, "G-U-W-M-S".data),
   ("radar".data, "G-U-S-R".data),
   ("truck".data, "G-U-S-T".data),
   ("helicopter".data, "A-M-H".data),
   ("drone".data, "A-M-F-Q".data)]

/-- Python `dict.get` on a string-keyed literal dict. -/
def mapGet (m : List (List Char × List Char)) (k : List Char) :
    Option (List Char) :=
  (m.find? (fun p => p.1 == k)).map Prod.snd

/-- The `cot_type` property: `f"a-{affiliation.value}-{base}"` where `base`
is the category looked up under the lowercased description, with the code's
falsy check (`if not base`) substituting `"G-U"` for a missing (or empty)
entry. -/
def cot_type (m : CoordinateMessage) : List Char :=
  let base := match mapGet COT_TYPE_MAP (pyLower m.description) with
    | some b => if b.isEmpty then "G-U".data else b
    | none => "G-U".data
  "a-".data ++ [m.affiliation.value] ++ "-".data ++ base

/-- Signature of the external `pytak.gen_cot` encoder, in the argument order
of the call site: lat, lon, uid, ce, le, hae, cot_type, stale.  It may
return `none` (Python `None`) when no representation can be produced. -/
abbrev GenCotFn :=
  PyFloat → PyFloat → List Char → ℚ → ℚ → ℚ → List Char → ℚ →
    Option (List UInt8)

/-- The `gen_cot` method: delegate the event's fields to `pytak.gen_cot`. -/
def gen_cot (pytakGen : GenCotFn) (m : CoordinateMessage)
    (hae stale ce le : ℚ) : Option (List UInt8) :=
  pytakGen m.lat m.lon m.event_id ce le hae (cot_type m) stale

/-- `_cot_message_handler`: parse the raw text and encode it (with the
method's default arguments); enqueue the bytes when they are truthy, log
and drop otherwise; all `ValueError`s from parsing/validation are caught
(the `try`/`except ValueError`), so the function is total in the state. -/
def cot_message_handler (pytakGen : GenCotFn) (uuid cot_message_raw : List Char)
    (queue : List (List UInt8)) : List (List UInt8) :=
  match from_string uuid cot_message_raw with
  | .error _ => queue
  | .ok m =>
    match gen_cot pytakGen m 0 120 50 9999999 with
    | some b => if b.isEmpty then queue else queue ++ [b]
    | none => queue

/-- JSON values as produced by `json.loads` (Python objects: dict, list,
str, number, bool, None). -/
inductive JValue where
  | null
  | bool (b : Bool)
  | num (q : ℚ)
  | str (s : List Char)
  | arr (xs : List JValue)
  | obj (fields : List (List Char × JValue))

/-- Python `dict.get(k)` on a JSON object (no default): `None` ⇒ `none`. -/
def dGet (d : List (List Char × JValue)) (k : List Char) : Option JValue :=
  (d.find? (fun p => p.1 == k)).map Prod.snd

/-- The exceptions the envelope router can raise (neither is a
`ValueError`, so neither is caught anywhere in the module). -/
inductive PyErr where
  | typeError
  | attributeError
deriving DecidableEq

/-- A `.get` attribute access: succeeds on a dict, raises `AttributeError`
on any other Python object. -/
def asDict : JValue → Except PyErr (List (List Char × JValue))
  | .obj fields => Except.ok fields
  | _ => Except.error PyErr.attributeError

/-- Python truthiness of a JSON value. -/
def jTruthy : JValue → Bool
  | .null => false
  | .bool b => b
  | .num q => !(q == 0)
  | .str s => !s.isEmpty
  | .arr xs => !xs.isEmpty
  | .obj fs => !fs.isEmpty

/-- Truthiness of an optional value (`None` is falsy). -/
def optTruthy : Option JValue → Bool
  | none => false
  | some v => jTruthy v

/-- Python `a or b`: the first operand when truthy, otherwise the second. -/
def pyOr (a b : Option JValue) : Option JValue :=
  if optTruthy a then a else b

/-- Python slicing `x[:n]`: allowed on sequences (str, list), a `TypeError`
on anything else — in particular on `None`. -/
def pySliceCheck : Option JValue → Except PyErr Unit
  | some (.str _) => Except.ok ()
  | some (.arr _) => Except.ok ()
  | _ => Except.error PyErr.typeError

/-- Substring test, for Python `key in s` when `s` is a string. -/
def containsSub (pat : List Char) : List Char → Bool
  | [] => pat.isEmpty
  | c :: r => pat.isPrefixOf (c :: r) || containsSub pat r

/-- Python `key in container`: key membership for dicts, element equality
for lists, substring test for strings, `TypeError` otherwise. -/
def pyIn (key : List Char) : JValue → Except PyErr Bool
  | .obj fs => Except.ok (fs.any (fun p => p.1 == key))
  | .arr xs => Except.ok (xs.any (fun x => match x with
      | .str s => s == key
      | _ => false))
  | .str s => Except.ok (containsSub key s)
  | _ => Except.error PyErr.typeError

/-- Python `v == "lit"` for an optional JSON value and a string literal. -/
def isStr (v : Option JValue) (s : List Char) : Bool :=
  match v with
  | some (.str t) => t == s
  | _ => false

/-- `handle_socket_message`, step by step from the source: take
`message.get("method")`; unless it equals `"receive"`, log and return.
Otherwise take `params = message.get("params", {})`,
`envelope = params.get("envelope", {})`, and return unless
`"dataMessage" in envelope`.  Then read `account = params.get("account")`,
`source = envelope.get("sourceNumber") or envelope.get("source")`,
`text = envelope.get("dataMessage", {}).get("message")`.  When `text` is
truthy the code first formats the info-log line, which slices `account[:7]`
and `source[:10]` — a `TypeError` when either is `None` — and only then
invokes the handler callback with `text`.  The returned value is the
argument passed to the handler (`some text`), or `none` when the handler
is not invoked; `Except.error` models an escaping exception. -/
def handle_socket_message (message : JValue) :
    Except PyErr (Option JValue) := do
  let msg ← asDict message
  let method := dGet msg "method".data
  if isStr method "receive".data then
    let params ← asDict ((dGet msg "params".data).getD (JValue.obj []))
    let envelopeJ := (dGet params "envelope".data).getD (JValue.obj [])
    let hasKey ← pyIn "dataMessage".data envelopeJ
    if hasKey then
      let account := dGet params "account".data
      let envelope ← asDict envelopeJ
      let source := pyOr (dGet envelope "sourceNumber".data)
        (dGet envelope "source".data)
      let dataMessage ← asDict ((dGet envelope "dataMessage".data).getD
        (JValue.obj []))
      let text := dGet dataMessage "message".data
      if optTruthy text then
        let _ ← pySliceCheck account
        let _ ← pySliceCheck source
        pure text
      else
        pure none
    else
      pure none
  else
    pure none

/-- The first envelope of the claim: a receive notification whose envelope
carries only the data message, with no account and no source fields. -/
def msgReceiveTank : JValue :=
  JValue.obj [("method".data, JValue.str "receive".data),
    ("params".data, JValue.obj
      [("envelope".data, JValue.obj
        [("dataMessage".data, JValue.obj
          [("message".data, JValue.str "1 2 tank".data)])])])]

/-- The second envelope of the claim: a receive notification without a
`dataMessage` key. -/
def msgReceiveEmpty : JValue :=
  JValue.obj [("method".data, JValue.str "receive".data),
    ("params".data, JValue.obj [("envelope".data, JValue.obj [])])]

/-- The third envelope of the claim: a non-receive notification. -/
def msgSubscribe : JValue :=
  JValue.obj [("method".data, JValue.str "subscribe".data)]

/-- A well-populated receive envelope (account and source present), for
comparison: this is the shape signal-cli actually emits. -/
def msgReceiveFull : JValue :=
  JValue.obj [("method".data, JValue.str "receive".data),
    ("params".data, JValue.obj
      [("account".data, JValue.str "+100".data),
       ("envelope".data, JValue.obj
        [("sourceNumber".data, JValue.str "+200".data),
         ("dataMessage".data, JValue.obj
          [("message".data, JValue.str "48.5 39.8 tank".data)])])])]

/-- Outcome of one `asyncio.open_connection` attempt, as the reconnect loop
observes it: refused, failed with some other connection-level error, or
connected with a finite stream of received lines ending in EOF. -/
inductive ConnResult where
  | refused
  | connFailed
  | connected (lines : List (List Char))

/-- What one iteration of the outer `while True` does next: go around again
after sleeping `delay` seconds, or return from the function. The source has
no `return`/`break` out of the outer loop, so `exit` is never produced — that
is exactly what the liveness claim asserts. -/
inductive ClientStep (σ : Type) where
  | retry (st : σ) (delay : ℕ)
  | exit (st : σ)

/-- Processing of one received line inside the read loop: decode+strip, skip
blanks, `json.loads` (modelled by the ambient `jsonParse` function — on
failure the `except json.JSONDecodeError` logs at debug level and
continues), then `handle_socket_message`; a non-`JSONDecodeError` exception
from the latter escapes the inner `try` (which catches only
`JSONDecodeError`) and is reported to the connection loop. -/
def processLine (jsonParse : List Char → Option JValue)
    (handler : JValue → σ → σ) (line : List Char) (st : σ) :
    σ × Option PyErr :=
  let line_str := pyStrip line
  if line_str.isEmpty then (st, none)
  else
    match jsonParse line_str with
    | none => (st, none)
    | some message =>
      match handle_socket_message message with
      | .error e => (st, some e)
      | .ok none => (st, none)
      | .ok (some text) => (handler text st, none)

/-- The inner `while True` read loop over the lines of one connection:
process lines until EOF (end of the list, where `readline` returns `b""`
and the loop breaks) or until an exception escapes a line's processing. -/
def readLoop (jsonParse : List Char → Option JValue)
    (handler : JValue → σ → σ) :
    List (List Char) → σ → σ × Option PyErr
  | [], st => (st, none)
  | l :: ls, st =>
    match processLine jsonParse handler l st with
    | (st', none) => readLoop jsonParse handler ls st'
    | (st', some e) => (st', some e)

/-- One iteration of `receive_from_tcp_socket`'s outer `while True`:
`ConnectionRefusedError` and any other `Exception` are caught, logged at
error level, and followed by `asyncio.sleep(5)`; a connection that ends in
clean EOF breaks the inner loop, closes the writer, and falls through to
the next outer iteration with no sleep; an exception escaping the read
loop is caught by `except Exception` and also sleeps 5.  No branch leaves
the outer loop. -/
def clientLoopBody (jsonParse : List Char → Option JValue)
    (handler : JValue → σ → σ) (outcome : ConnResult) (st : σ) :
    ClientStep σ :=
  match outcome with
  | .refused => ClientStep.retry st 5
  | .connFailed => ClientStep.retry st 5
  | .connected lines =>
    match readLoop jsonParse handler lines st with
    | (st', none) => ClientStep.retry st' 0
    | (st', some _) => ClientStep.retry st' 5

/-- `receive_from_tcp_socket` run against a finite trace of connection
outcomes: the final state and the number of connection attempts made.
Every outcome in the trace is consumed by a fresh attempt unless the loop
body exits (which it never does). -/
def clientRun (jsonParse : List Char → Option JValue)
    (handler : JValue → σ → σ) :
    List ConnResult → σ → σ × ℕ
  | [], st => (st, 0)
  | o :: os, st =>
    match clientLoopBody jsonParse handler o st with
    | ClientStep.retry st' _ =>
      let r := clientRun jsonParse handler os st'
      (r.1, r.2 + 1)
    | ClientStep.exit st' => (st', 1)

/-- Events observable on the daemon subprocess handle. -/
inductive ProcEvent where
  | procStart
  | procTerminate
  | procWait
deriving DecidableEq

/-- How the body of the supervisor scope (the bridge's receive loop) ends:
normal return, an exception, or task cancellation. -/
inductive Outcome where
  | normal
  | raised
  | cancelled
deriving DecidableEq

/-- Python `try`/`finally` over event traces: the finaliser's events run
after the body's on every exit path, and the body's outcome (value,
exception, or cancellation) is then propagated unchanged. -/
def pyTryFinally (body : List ProcEvent × Outcome) (fin : List ProcEvent) :
    List ProcEvent × Outcome :=
  (body.1 ++ fin, body.2)

/-- The `cleaning_up_proc` async context manager: start the daemon process,
run the body at the `yield`, and in the `finally` call
`process.terminate()` and then `await process.wait()`. -/
def cleaning_up_proc (body : List ProcEvent × Outcome) :
    List ProcEvent × Outcome :=
  let t := pyTryFinally body [ProcEvent.procTerminate, ProcEvent.procWait]
  (ProcEvent.procStart :: t.1, t.2)

/-- `run_incomming_message_processing`: wrap the receive loop (whose trace
of subprocess-relevant events is empty — it never touches the process
handle) in the supervisor scope. -/
def run_incomming_message_processing (clientOutcome : Outcome) :
    List ProcEvent × Outcome :=
  cleaning_up_proc ([], clientOutcome)

example : pySplit2 (pyStrip "  1 2  tank is here ".data) =
    ["1".data, "2".data, "tank is here".data] := by decide

example : parseFloat "48.5".data = some (PyFloat.finite (97 / 2)) := by
  with_unfolding_all rfl

example : parseFloat "-1_0e1".data = some (PyFloat.finite (-100)) := by
  with_unfolding_all rfl

example : parseFloat "tank".data = none := by decide

example : parseFloat "inf".data = some PyFloat.inf := by decide

example : from_string "u0".data "48.5 39.8 tank".data =
    Except.ok ⟨PyFloat.finite (97 / 2), PyFloat.finite (199 / 5), "tank".data,
      Affiliation.unknown, "Signal-Bot-u0".data⟩ := by with_unfolding_all rfl

example : from_string "u0".data "91 0 tank".data =
    Except.error VErr.invalidLatitude := by with_unfolding_all rfl

example : from_string "u0".data "1 2".data =
    Except.error VErr.badFormat := by with_unfolding_all rfl

example : from_string "u0".data "x 2 tank".data =
    Except.error VErr.invalidCoordinates := by with_unfolding_all rfl

example : cot_type ⟨PyFloat.finite 1, PyFloat.finite 2, "TANK".data,
    Affiliation.unknown, []⟩ = "a-u-G-U-C-F-M".data := by decide

example : cot_type ⟨PyFloat.finite 1, PyFloat.finite 2, "spaceship".data,
    Affiliation.hostile, []⟩ = "a-h-G-U".data := by decide

example : handle_socket_message msgReceiveTank =
    Except.error PyErr.typeError := by rfl

example : handle_socket_message msgReceiveEmpty = Except.ok none := by rfl

example : handle_socket_message msgSubscribe = Except.ok none := by rfl

example : handle_socket_message msgReceiveFull =
    Except.ok (some (JValue.str "48.5 39.8 tank".data)) := by rfl

/-- A helper: `List.dropWhile` ignores a prefix all of whose characters
satisfy the predicate. -/
theorem dropWhile_all_append (p : Char → Bool) (w s : List Char)
    (hw : ∀ c ∈ w, p c = true) :
    (w ++ s).dropWhile p = s.dropWhile p := by
  induction w with
  | nil => rfl
  | cons c w ih =>
    have hc : p c = true := hw c (List.mem_cons_self c w)
    simp only [List.cons_append, List.dropWhile_cons, hc, if_pos]
    exact ih (fun d hd => hw d (List.mem_cons_of_mem c hd))

/-- A helper: when `dropWhile` leaves something of `s`, appending to `s`
appends after the dropped part. -/
theorem dropWhile_append_of_ne_nil (p : Char → Bool) (s t : List Char)
    (h : s.dropWhile p ≠ []) :
    (s ++ t).dropWhile p = s.dropWhile p ++ t := by
  induction s with
  | nil => simp [List.dropWhile] at h
  | cons c s ih =>
    by_cases hc : p c = true
    · simp only [List.dropWhile_cons, hc, if_pos] at h
      simp only [List.cons_append, List.dropWhile_cons, hc, if_pos]
      exact ih h
    · have hc' : p c = false := by simpa using hc
      simp [List.dropWhile_cons, hc']

/-- `pyStrip` absorbs a leading all-whitespace block. -/
theorem pyStrip_append_left (w s : List Char)
    (hw : ∀ c ∈ w, pyIsSpace c = true) :
    pyStrip (w ++ s) = pyStrip s := by
  unfold pyStrip
  rw [dropWhile_all_append _ _ _ hw]

/-- `pyStrip` absorbs a trailing all-whitespace block. -/
theorem pyStrip_append_right (s w : List Char)
    (hw : ∀ c ∈ w, pyIsSpace c = true) :
    pyStrip (s ++ w) = pyStrip s := by
  unfold pyStrip
  rcases h : s.dropWhile pyIsSpace with _ | ⟨d, ds⟩
  · have hall : ∀ c ∈ s, pyIsSpace c = true :=
      List.dropWhile_eq_nil_iff.mp h
    have h2 : (s ++ w).dropWhile pyIsSpace = [] := by
      rw [dropWhile_all_append _ _ _ hall]
      exact List.dropWhile_eq_nil_iff.mpr hw
    rw [h2]
  · have hne : s.dropWhile pyIsSpace ≠ [] := by rw [h]; simp
    rw [dropWhile_append_of_ne_nil _ _ _ hne, h, List.reverse_append,
      dropWhile_all_append _ _ _
        (fun c hc => hw c (List.mem_reverse.mp hc))]

/-- `pyStrip` of a whitespace-padded string is `pyStrip` of the string. -/
theorem pyStrip_sandwich (w t w' : List Char)
    (hw : ∀ c ∈ w, pyIsSpace c = true)
    (hw' : ∀ c ∈ w', pyIsSpace c = true) :
    pyStrip (w ++ t ++ w') = pyStrip t := by
  rw [List.append_assoc, pyStrip_append_left _ _ hw,
    pyStrip_append_right _ _ hw']

/-- Parse results with the event identifier erased, for comparing runs of
`from_string` that drew different uuids. -/
def stripId : Except VErr CoordinateMessage →
    Except VErr (PyFloat × PyFloat × List Char × Affiliation)
  | .error e => Except.error e
  | .ok m => Except.ok (m.lat, m.lon, m.description, m.affiliation)

/-- Validation does not look at the event identifier. -/
theorem init_stripId (lat lon : PyFloat) (d : List Char) (a : Affiliation)
    (e1 e2 : List Char) :
    stripId (CoordinateMessage.init lat lon d a e1) =
      stripId (CoordinateMessage.init lat lon d a e2) := by
  unfold CoordinateMessage.init
  split_ifs <;> rfl

/-- Two runs of `from_string` on the same text differ at most in the
event identifier (drawn from `uuid4`). -/
theorem from_string_stripId (u1 u2 s : List Char) :
    stripId (from_string u1 s) = stripId (from_string u2 s) := by
  unfold from_string
  rcases h : pySplit2 (pyStrip s) with _ | ⟨p0, _ | ⟨p1, _ | ⟨p2, _ | ⟨p3, ps⟩⟩⟩⟩ <;>
    (simp only [h]; try rfl)
  rcases parseFloat p0 with _ | lat <;> rcases parseFloat p1 with _ | lon <;>
    try rfl
  exact init_stripId lat lon p2 Affiliation.unknown _ _

/-- C8: on every exit path of the `cleaning_up_proc` scope — normal return,
error raised inside the scope, or cancellation — the started daemon
subprocess is terminated and then awaited before the scope returns, and the
body's outcome is propagated; in particular the bridge's
`run_incomming_message_processing` observes the subprocess terminated and
awaited before its own run call returns, whatever way its body ends. -/
theorem cleaning_up_proc_terminates_subprocess
    (body : List ProcEvent × Outcome) :
    cleaning_up_proc body =
      (ProcEvent.procStart :: body.1 ++
        [ProcEvent.procTerminate, ProcEvent.procWait], body.2) ∧
    (∀ o : Outcome, run_incomming_message_processing o =
      ([ProcEvent.procStart, ProcEvent.procTerminate, ProcEvent.procWait],
        o)) := by
  constructor
  · rfl
  · intro o
    rfl

/-- C6: the reconnecting client loop never returns: every connection
outcome leads to another `retry` step (never `exit`), a refused connection
retries after the fixed 5-second delay with the state unchanged, any other
connection-level error also retries after 5 seconds, and a run over any
finite trace of outcomes makes exactly one fresh connection attempt per
outcome — there is no maximum retry count. -/
theorem receive_from_tcp_socket_reconnects (σ : Type)
    (jsonParse : List Char → Option JValue) (handler : JValue → σ → σ)
    (st : σ) (outcomes : List ConnResult) :
    clientLoopBody jsonParse handler ConnResult.refused st =
      ClientStep.retry st 5 ∧
    clientLoopBody jsonParse handler ConnResult.connFailed st =
      ClientStep.retry st 5 ∧
    (∀ (o : ConnResult) (s : σ), ∀ s' : σ,
      clientLoopBody jsonParse handler o s ≠ ClientStep.exit s') ∧
    (clientRun jsonParse handler outcomes st).2 = outcomes.length := by
  refine ⟨rfl, rfl, ?_, ?_⟩
  · intro o s s'
    cases o with
    | refused => simp [clientLoopBody]
    | connFailed => simp [clientLoopBody]
    | connected lines =>
      cases h : readLoop jsonParse handler lines s with
      | mk st' err =>
        cases err <;> simp [clientLoopBody, h]
  · induction outcomes generalizing st with
    | nil => rfl
    | cons o os ih =>
      cases o with
      | refused => simpa [clientRun, clientLoopBody] using ih _
      | connFailed => simpa [clientRun, clientLoopBody] using ih _
      | connected lines =>
        cases h : readLoop jsonParse handler lines st with
        | mk st' err =>
          cases err <;> simp [clientRun, clientLoopBody, h] <;> exact ih _

/-- C7: a received line whose stripped text is not valid JSON is logged and
skipped — the state (in particular the output queue) is unchanged, no
exception escapes, and the read loop continues with the remaining lines. -/
theorem non_json_line_skipped (σ : Type)
    (jsonParse : List Char → Option JValue) (handler : JValue → σ → σ)
    (line : List Char) (rest : List (List Char)) (st : σ)
    (hnj : jsonParse (pyStrip line) = none) :
    processLine jsonParse handler line st = (st, none) ∧
    readLoop jsonParse handler (line :: rest) st =
      readLoop jsonParse handler rest st := by
  have hp : processLine jsonParse handler line st = (st, none) := by
    simp only [processLine, hnj]
    split_ifs <;> rfl
  refine ⟨hp, ?_⟩
  show (match processLine jsonParse handler line st with
    | (st', none) => readLoop jsonParse handler rest st'
    | (st', some e) => (st', some e)) = readLoop jsonParse handler rest st
  rw [hp]

/-- C7 witness: the spec's own example line `"not json"` (with a parser
that rejects it) leaves a queue-counter state untouched. -/
theorem non_json_line_skipped_witness :
    processLine (fun _ => (none : Option JValue)) (fun _ s => s)
      "not json".data (0 : ℕ) = (0, none) ∧
    readLoop (fun _ => (none : Option JValue)) (fun _ s => s)
      ["not json".data] (0 : ℕ) =
      readLoop (fun _ => (none : Option JValue)) (fun _ s => s) [] 0 :=
  non_json_line_skipped ℕ (fun _ => none) (fun _ s => s)
    "not json".data [] 0 rfl

/-- C2: evaluation of the Envelope Router at the claim's three inputs.  For
the receive envelope whose `params` carries neither an `account` nor any
source field, the info-log f-string slices `account[:7]` with `account =
None`, raising `TypeError` before the handler callback is ever invoked —
the claimed handler invocation with `"1 2 tank"` does not happen and an
exception does escape.  The other two inputs return without invoking the
handler, as claimed.  A fully-populated signal-cli envelope (account and
sourceNumber present) does reach the handler. -/
theorem handle_socket_message_eval :
    handle_socket_message msgReceiveTank = Except.error PyErr.typeError ∧
    handle_socket_message msgReceiveEmpty = Except.ok none ∧
    handle_socket_message msgSubscribe = Except.ok none ∧
    handle_socket_message msgReceiveFull =
      Except.ok (some (JValue.str "48.5 39.8 tank".data)) :=
  ⟨rfl, rfl, rfl, rfl⟩

/-- A helper: the third part produced by `split(maxsplit=2)` is never the
empty string. -/
theorem pySplit2_third_ne_nil (s p0 p1 p2 : List Char)
    (h : pySplit2 s = [p0, p1, p2]) : p2 ≠ [] := by
  simp only [pySplit2] at h
  split_ifs at h with h1 h2 h3 <;> try simp at h
  obtain ⟨-, -, hc⟩ := h
  subst hc
  intro hcon
  exact h3 (by simp [hcon])

/-- A helper: a successful `from_string` run took exactly this path: a
three-way split, two float parses, and a validated construction with the
default affiliation and the `"Signal-Bot-"` event identifier. -/
theorem from_string_ok_shape (uuid text : List Char) (m : CoordinateMessage)
    (h : from_string uuid text = Except.ok m) :
    ∃ p0 p1 p2 lat lon, pySplit2 (pyStrip text) = [p0, p1, p2] ∧
      parseFloat p0 = some lat ∧ parseFloat p1 = some lon ∧
      m = ⟨lat, lon, p2, Affiliation.unknown, "Signal-Bot-".data ++ uuid⟩ := by
  unfold from_string at h
  split at h
  · rename_i p0 p1 p2 hs
    split at h
    · rename_i lat lon hf0 hf1
      unfold CoordinateMessage.init at h
      split_ifs at h
      injection h with h
      exact ⟨p0, p1, p2, lat, lon, hs, hf0, hf1, h.symm⟩
    · exact Except.noConfusion h
  · exact Except.noConfusion h

/-- C9: every `CoordinateMessage` produced by `from_string` has a non-empty
description: the third part of the whitespace split is never empty, so the
`"Label cannot be empty"` branch of `__post_init__` is unreachable from
`from_string` — it never fails with that error, and on success the stored
description is non-empty. -/
theorem from_string_label_nonempty :
    (∀ s p0 p1 p2 : List Char, pySplit2 s = [p0, p1, p2] → p2 ≠ []) ∧
    (∀ uuid text : List Char,
      from_string uuid text ≠ Except.error VErr.emptyLabel) ∧
    (∀ (uuid text : List Char) (m : CoordinateMessage),
      from_string uuid text = Except.ok m → m.description ≠ []) := by
  refine ⟨pySplit2_third_ne_nil, ?_, ?_⟩
  · intro uuid text h
    unfold from_string at h
    split at h
    · rename_i p0 p1 p2 hs
      split at h
      · rename_i lat lon hf0 hf1
        unfold CoordinateMessage.init at h
        split_ifs at h with h1 h2 h3
        · simp at h
        · simp at h
        · have hp2 : p2 = [] := by simp_all [List.isEmpty_iff]
          exact pySplit2_third_ne_nil _ _ _ _ hs hp2
      · simp at h
    · simp at h
  · intro uuid text m h
    obtain ⟨p0, p1, p2, lat, lon, hs, -, -, hm⟩ :=
      from_string_ok_shape uuid text m h
    rw [hm]
    exact pySplit2_third_ne_nil _ _ _ _ hs

/-- C9 witness: the second and third conjuncts applied at a concrete parse. -/
theorem from_string_label_nonempty_witness :
    from_string "u".data "1 2 tank".data ≠ Except.error VErr.emptyLabel :=
  from_string_label_nonempty.2.1 "u".data "1 2 tank".data

/-- C10: `from_string` is invariant under surrounding whitespace: padding
the text with leading and trailing whitespace gives the identical result
(the text is stripped before splitting), and against a second invocation
with its own fresh uuid the two runs still fail together or succeed with
equal lat, lon, description (and affiliation). -/
theorem from_string_whitespace_invariant (u1 u2 w t w' : List Char)
    (hw : ∀ c ∈ w, pyIsSpace c = true)
    (hw' : ∀ c ∈ w', pyIsSpace c = true) :
    from_string u1 (w ++ t ++ w') = from_string u1 t ∧
    stripId (from_string u1 (w ++ t ++ w')) = stripId (from_string u2 t) := by
  have hs : pyStrip (w ++ t ++ w') = pyStrip t := pyStrip_sandwich w t w' hw hw'
  have he : from_string u1 (w ++ t ++ w') = from_string u1 t := by
    unfold from_string
    rw [hs]
  exact ⟨he, by rw [he]; exact from_string_stripId u1 u2 t⟩

/-- C10 witness: padding `"1 2 tank"` with a space and a newline changes
nothing, also against a run drawing a different uuid. -/
theorem from_string_whitespace_invariant_witness :
    from_string "u".data (" ".data ++ "1 2 tank".data ++ "\n".data) =
      from_string "u".data "1 2 tank".data ∧
    stripId (from_string "u".data (" ".data ++ "1 2 tank".data ++ "\n".data)) =
      stripId (from_string "v".data "1 2 tank".data) :=
  from_string_whitespace_invariant "u".data "v".data " ".data
    "1 2 tank".data "\n".data (by decide) (by decide)

/-- A helper: a chained bound check on a finite float is just the rational
comparison. -/
theorem chainedLe_finite (lo hi q : ℚ) (h1 : lo ≤ q) (h2 : q ≤ hi) :
    chainedLe lo (PyFloat.finite q) hi = true := by
  simp [chainedLe, pyLeQ, pyLeF, h1, h2]

/-- A helper: validation succeeds on in-range finite coordinates and a
non-empty label, yielding exactly the constructed event. -/
theorem init_ok (lat lon : ℚ) (d e : List Char) (a : Affiliation)
    (hlat1 : -90 ≤ lat) (hlat2 : lat ≤ 90)
    (hlon1 : -180 ≤ lon) (hlon2 : lon ≤ 180) (hd : d ≠ []) :
    CoordinateMessage.init (PyFloat.finite lat) (PyFloat.finite lon) d a e =
      Except.ok ⟨PyFloat.finite lat, PyFloat.finite lon, d, a, e⟩ := by
  unfold CoordinateMessage.init
  rw [chainedLe_finite _ _ _ hlat1 hlat2, chainedLe_finite _ _ _ hlon1 hlon2]
  simp [List.isEmpty_iff, hd]

/-- A helper: the success path of `from_string`, explicitly. -/
theorem from_string_ok_of (u text p0 p1 p2 : List Char) (lat lon : ℚ)
    (hsplit : pySplit2 (pyStrip text) = [p0, p1, p2])
    (hlat : parseFloat p0 = some (PyFloat.finite lat))
    (hlon : parseFloat p1 = some (PyFloat.finite lon))
    (hlat1 : -90 ≤ lat) (hlat2 : lat ≤ 90)
    (hlon1 : -180 ≤ lon) (hlon2 : lon ≤ 180) (hp2 : p2 ≠ []) :
    from_string u text = Except.ok
      ⟨PyFloat.finite lat, PyFloat.finite lon, p2, Affiliation.unknown,
        "Signal-Bot-".data ++ u⟩ := by
  unfold from_string
  rw [hsplit]
  dsimp only
  rw [hlat, hlon]
  exact init_ok lat lon p2 _ _ hlat1 hlat2 hlon1 hlon2 hp2

/-- A helper: a text that does not split into exactly three parts fails
with the format error. -/
theorem from_string_badFormat (u t : List Char)
    (h : (pySplit2 (pyStrip t)).length ≠ 3) :
    from_string u t = Except.error VErr.badFormat := by
  unfold from_string
  rcases hs : pySplit2 (pyStrip t) with _ | ⟨a, _ | ⟨b, _ | ⟨c, _ | ⟨d, ds⟩⟩⟩⟩
  · rfl
  · rfl
  · rfl
  · rw [hs] at h
    simp at h
  · rfl

/-- A helper: a three-way split whose first or second token does not parse
as a float fails with the coordinates error. -/
theorem from_string_invalidCoordinates (u t q0 q1 q2 : List Char)
    (hs : pySplit2 (pyStrip t) = [q0, q1, q2])
    (hf : parseFloat q0 = none ∨ parseFloat q1 = none) :
    from_string u t = Except.error VErr.invalidCoordinates := by
  unfold from_string
  rw [hs]
  dsimp only
  rcases hf with hf | hf
  · rw [hf]
  · rcases h0 : parseFloat q0 with _ | v
    · rfl
    · rw [hf]

/-- C1: for input text of the form `"<lat> <lon> <label>"` — three
whitespace-separated tokens whose first two parse as floats in range, with
a (necessarily) non-empty label — `from_string` succeeds, storing exactly
the parsed latitude, longitude and label, with a non-empty event
identifier; a second invocation on identical text (drawing a different
uuid4, the hypothesis `hu`) gives the same lat/lon/label but a different
`event_id`.  And every text that does not split into exactly three tokens
fails with the format `ValueError`, while a three-token text whose first or
second token is not a float fails with the coordinates `ValueError`. -/
theorem from_string_correct (u1 u2 text p0 p1 p2 : List Char) (lat lon : ℚ)
    (hsplit : pySplit2 (pyStrip text) = [p0, p1, p2])
    (hlat : parseFloat p0 = some (PyFloat.finite lat))
    (hlon : parseFloat p1 = some (PyFloat.finite lon))
    (hlatR : -90 ≤ lat ∧ lat ≤ 90) (hlonR : -180 ≤ lon ∧ lon ≤ 180)
    (hp2 : p2 ≠ []) (hu : u1 ≠ u2) :
    (∃ m1 m2 : CoordinateMessage,
      from_string u1 text = Except.ok m1 ∧
      from_string u2 text = Except.ok m2 ∧
      m1.lat = PyFloat.finite lat ∧ m1.lon = PyFloat.finite lon ∧
      m1.description = p2 ∧ m1.event_id ≠ [] ∧
      m2.lat = m1.lat ∧ m2.lon = m1.lon ∧ m2.description = m1.description ∧
      m1.event_id ≠ m2.event_id) ∧
    (∀ t : List Char, (pySplit2 (pyStrip t)).length ≠ 3 →
      from_string u1 t = Except.error VErr.badFormat) ∧
    (∀ t q0 q1 q2 : List Char, pySplit2 (pyStrip t) = [q0, q1, q2] →
      parseFloat q0 = none ∨ parseFloat q1 = none →
      from_string u1 t = Except.error VErr.invalidCoordinates) := by
  refine ⟨⟨_, _,
    from_string_ok_of u1 text p0 p1 p2 lat lon hsplit hlat hlon
      hlatR.1 hlatR.2 hlonR.1 hlonR.2 hp2,
    from_string_ok_of u2 text p0 p1 p2 lat lon hsplit hlat hlon
      hlatR.1 hlatR.2 hlonR.1 hlonR.2 hp2,
    rfl, rfl, rfl, ?_, rfl, rfl, rfl, ?_⟩,
    fun t ht => from_string_badFormat u1 t ht,
    fun t q0 q1 q2 hs hf => from_string_invalidCoordinates u1 t q0 q1 q2 hs hf⟩
  · intro hcon
    have hl := congrArg List.length hcon
    rw [List.length_append] at hl
    have h11 : ("Signal-Bot-".data).length = 11 := by with_unfolding_all rfl
    rw [h11] at hl
    simp at hl
  · intro hcon
    exact hu (List.append_cancel_left hcon)

/-- C1 witness: both runs on `"1 2 tank"` with distinct uuids. -/
theorem from_string_correct_witness :
    ∃ m1 m2 : CoordinateMessage,
      from_string "a".data "1 2 tank".data = Except.ok m1 ∧
      from_string "b".data "1 2 tank".data = Except.ok m2 ∧
      m1.lat = PyFloat.finite 1 ∧ m1.lon = PyFloat.finite 2 ∧
      m1.description = "tank".data ∧ m1.event_id ≠ [] ∧
      m2.lat = m1.lat ∧ m2.lon = m1.lon ∧ m2.description = m1.description ∧
      m1.event_id ≠ m2.event_id :=
  (from_string_correct "a".data "b".data "1 2 tank".data "1".data "2".data
    "tank".data 1 2 (by with_unfolding_all rfl) (by with_unfolding_all rfl)
    (by with_unfolding_all rfl) (by norm_num) (by norm_num) (by decide)
    (by decide)).1

/-- C3: when the parsed latitude fails the `-90 <= lat <= 90` check, or the
parsed longitude fails `-180 <= lon <= 180`, construction raises the
corresponding range `ValueError` (latitude is checked first), and the
Conversion Handler consequently leaves the output queue untouched for that
message. -/
theorem out_of_range_rejected (uuid text p0 p1 p2 : List Char)
    (x y : PyFloat) (gen : GenCotFn) (queue : List (List UInt8))
    (hsplit : pySplit2 (pyStrip text) = [p0, p1, p2])
    (hx : parseFloat p0 = some x) (hy : parseFloat p1 = some y)
    (hout : chainedLe (-90) x 90 = false ∨ chainedLe (-180) y 180 = false) :
    (from_string uuid text = Except.error VErr.invalidLatitude ∨
     from_string uuid text = Except.error VErr.invalidLongitude) ∧
    cot_message_handler gen uuid text queue = queue := by
  have hfs : from_string uuid text = Except.error VErr.invalidLatitude ∨
      from_string uuid text = Except.error VErr.invalidLongitude := by
    unfold from_string
    rw [hsplit]
    dsimp only
    rw [hx, hy]
    dsimp only
    unfold CoordinateMessage.init
    by_cases h1 : chainedLe (-90) x 90 = true
    · rcases hout with ho | ho
      · rw [ho] at h1
        simp at h1
      · right
        simp [h1, ho]
    · left
      have h1' : chainedLe (-90) x 90 = false := by simpa using h1
      simp [h1']
  refine ⟨hfs, ?_⟩
  unfold cot_message_handler
  rcases hfs with h | h <;> rw [h]

/-- C3 witness: `"91 0 tank"` is rejected for latitude and enqueues
nothing. -/
theorem out_of_range_rejected_witness :
    (from_string "u".data "91 0 tank".data =
       Except.error VErr.invalidLatitude ∨
     from_string "u".data "91 0 tank".data =
       Except.error VErr.invalidLongitude) ∧
    cot_message_handler (fun _ _ _ _ _ _ _ _ => none) "u".data
      "91 0 tank".data [] = [] :=
  out_of_range_rejected "u".data "91 0 tank".data "91".data "0".data
    "tank".data (PyFloat.finite 91) (PyFloat.finite 0)
    (fun _ _ _ _ _ _ _ _ => none) [] (by with_unfolding_all rfl)
    (by with_unfolding_all rfl) (by with_unfolding_all rfl)
    (Or.inl (by with_unfolding_all rfl))

/-- A helper: the handler drops the message when parsing fails. -/
theorem cot_message_handler_err (gen : GenCotFn) (uuid text : List Char)
    (queue : List (List UInt8)) (e : VErr)
    (hf : from_string uuid text = Except.error e) :
    cot_message_handler gen uuid text queue = queue := by
  unfold cot_message_handler
  rw [hf]

/-- A helper: on a successful parse the handler's result is decided by the
encoder's output. -/
theorem cot_message_handler_ok_eq (gen : GenCotFn) (uuid text : List Char)
    (queue : List (List UInt8)) (m0 : CoordinateMessage)
    (hf : from_string uuid text = Except.ok m0) :
    cot_message_handler gen uuid text queue =
      (match gen_cot gen m0 0 120 50 9999999 with
       | some b => if b.isEmpty then queue else queue ++ [b]
       | none => queue) := by
  unfold cot_message_handler
  rw [hf]

/-- C4: the Conversion Handler is total (its `try`/`except ValueError`
catches every error `from_string` can produce, which are all
`ValueError`s) and enqueues at most one item per call: a parse or
validation failure leaves the queue unchanged (the message is dropped with
a warning), an encoder returning `None` (or falsy empty bytes) leaves the
queue unchanged with a warning, and a successful encode appends exactly
the one encoded buffer. -/
theorem cot_message_handler_at_most_one (gen : GenCotFn)
    (uuid text : List Char) (queue : List (List UInt8)) :
    (cot_message_handler gen uuid text queue = queue ∨
      ∃ b, b ≠ [] ∧ cot_message_handler gen uuid text queue = queue ++ [b]) ∧
    (∀ e, from_string uuid text = Except.error e →
      cot_message_handler gen uuid text queue = queue) ∧
    (∀ m, from_string uuid text = Except.ok m →
      gen_cot gen m 0 120 50 9999999 = none →
      cot_message_handler gen uuid text queue = queue) ∧
    (∀ m b, from_string uuid text = Except.ok m →
      gen_cot gen m 0 120 50 9999999 = some b → b ≠ [] →
      cot_message_handler gen uuid text queue = queue ++ [b]) := by
  refine ⟨?_, ?_, ?_, ?_⟩
  · rcases hf : from_string uuid text with e0 | m0
    · exact Or.inl (cot_message_handler_err gen uuid text queue e0 hf)
    · rcases hg : gen_cot gen m0 0 120 50 9999999 with _ | b0
      · exact Or.inl
          (by rw [cot_message_handler_ok_eq gen uuid text queue m0 hf, hg])
      · by_cases hb0 : b0.isEmpty
        · refine Or.inl ?_
          rw [cot_message_handler_ok_eq gen uuid text queue m0 hf, hg]
          show (if b0.isEmpty = true then queue else queue ++ [b0]) = queue
          rw [if_pos hb0]
        · refine Or.inr ⟨b0, fun hc => hb0 (by simp [hc]), ?_⟩
          rw [cot_message_handler_ok_eq gen uuid text queue m0 hf, hg]
          show (if b0.isEmpty = true then queue else queue ++ [b0]) =
            queue ++ [b0]
          rw [if_neg hb0]
  · intro e he
    exact cot_message_handler_err gen uuid text queue e he
  · intro m hm hgen
    rw [cot_message_handler_ok_eq gen uuid text queue m hm, hgen]
  · intro m b hm hgen hb
    rw [cot_message_handler_ok_eq gen uuid text queue m hm, hgen]
    show (if b.isEmpty = true then queue else queue ++ [b]) = queue ++ [b]
    rw [if_neg (by simp [hb])]

/-- C4 witness: the drop-on-parse-failure conjunct at the malformed text
`"x"`. -/
theorem cot_message_handler_at_most_one_witness :
    cot_message_handler (fun _ _ _ _ _ _ _ _ => none) "u".data "x".data []
      = [] :=
  (cot_message_handler_at_most_one (fun _ _ _ _ _ _ _ _ => none) "u".data
    "x".data []).2.1 VErr.badFormat (by with_unfolding_all rfl)

/-- C5: `cot_type` is `"a-"` + the affiliation's one-letter code + `"-"` +
the category code found under the lowercased description, with the generic
`"G-U"` fallback when the label is unrecognised (never an error); two
events whose labels agree up to letter case (and whose affiliations agree)
get the same type code; and every event built from chat text by
`from_string` has the default unknown affiliation, so its type code starts
with `"a-u-"`. -/
theorem cot_type_spec (m m' : CoordinateMessage)
    (hdesc : pyLower m.description = pyLower m'.description)
    (haff : m.affiliation = m'.affiliation) :
    cot_type m = "a-".data ++ [m.affiliation.value] ++ "-".data ++
      (match mapGet COT_TYPE_MAP (pyLower m.description) with
       | some b => if b.isEmpty then "G-U".data else b
       | none => "G-U".data) ∧
    cot_type m = cot_type m' ∧
    (mapGet COT_TYPE_MAP (pyLower m.description) = none →
      cot_type m = "a-".data ++ [m.affiliation.value] ++ "-G-U".data) ∧
    (m.affiliation = Affiliation.unknown →
      ∃ rest, cot_type m = "a-u-".data ++ rest) ∧
    (∀ (uuid text : List Char) (mm : CoordinateMessage),
      from_string uuid text = Except.ok mm →
      mm.affiliation = Affiliation.unknown) := by
  refine ⟨rfl, ?_, ?_, ?_, ?_⟩
  · unfold cot_type
    rw [hdesc, haff]
  · intro h
    unfold cot_type
    rw [h]
    with_unfolding_all rfl
  · intro h
    refine ⟨(match mapGet COT_TYPE_MAP (pyLower m.description) with
      | some b => if b.isEmpty then "G-U".data else b
      | none => "G-U".data), ?_⟩
    unfold cot_type
    rw [h]
    with_unfolding_all rfl
  · intro uuid text mm h
    obtain ⟨p0, p1, p2, lat, lon, -, -, -, hm⟩ :=
      from_string_ok_shape uuid text mm h
    rw [hm]

/-- C5 witness: `"Tank"` and `"TANK"` labels give the same type code, the
structural equation holds, and the default-affiliation conjunct applies. -/
theorem cot_type_spec_witness :
    cot_type ⟨PyFloat.finite 1, PyFloat.finite 2, "Tank".data,
        Affiliation.unknown, "e".data⟩ =
      cot_type ⟨PyFloat.finite 1, PyFloat.finite 2, "TANK".data,
        Affiliation.unknown, "e".data⟩ :=
  (cot_type_spec
    ⟨PyFloat.finite 1, PyFloat.finite 2, "Tank".data, Affiliation.unknown,
      "e".data⟩
    ⟨PyFloat.finite 1, PyFloat.finite 2, "TANK".data, Affiliation.unknown,
      "e".data⟩ (by decide) rfl).2.1

/-- C6 witness: a concrete refused connection is retried after 5 seconds
with the state unchanged. -/
theorem receive_from_tcp_socket_reconnects_witness :
    clientLoopBody (fun _ => (none : Option JValue)) (fun _ (s : ℕ) => s)
      ConnResult.refused 0 = ClientStep.retry 0 5 :=
  (receive_from_tcp_socket_reconnects ℕ (fun _ => none) (fun _ s => s)
    0 []).1

/-- C8 witness: a cancelled bridge run still terminates and awaits the
subprocess before returning, and propagates the cancellation. -/
theorem cleaning_up_proc_terminates_subprocess_witness :
    run_incomming_message_processing Outcome.cancelled =
      ([ProcEvent.procStart, ProcEvent.procTerminate, ProcEvent.procWait],
        Outcome.cancelled) :=
  (cleaning_up_proc_terminates_subprocess ([], Outcome.normal)).2
    Outcome.cancelled
